import Mathlib

/-!
Verification of the `mcp-server-mysql` core (src/index.ts) against its
natural-language specification.

The MySQL driver (mysql2) is modelled as an oracle (`Driver`) fixing the
outcome of each connection primitive; the executors of src/index.ts are
embedded as pure functions returning their result together with the trace of
driver primitives they invoked, mirroring the source's try/catch/finally
structure line by line.
-/

namespace McpMysql

/-- JavaScript `String.prototype.trim` whitespace (the ASCII part, which is
all the embedded SQL texts use). -/
def isJsWhitespace (c : Char) : Bool :=
  c = ' ' || c = '\t' || c = '\n' || c = '\r'

/-- JavaScript `sql.trim()`, modelled over the character list. -/
def jsTrim (s : String) : String :=
  ⟨((s.data.dropWhile isJsWhitespace).reverse.dropWhile isJsWhitespace).reverse⟩

/-- ASCII upper-casing of one character (`String.prototype.toUpperCase` on
the ASCII range). -/
def jsUpperChar (c : Char) : Char :=
  if 'a' ≤ c && c ≤ 'z' then Char.ofNat (c.toNat - 32) else c

/-- JavaScript `sql.toUpperCase()`, modelled over the character list. -/
def jsToUpperCase (s : String) : String :=
  ⟨s.data.map jsUpperChar⟩

/-- JavaScript `s.startsWith(pre)`. -/
def jsStartsWith (s pre : String) : Bool :=
  pre.data.isPrefixOf s.data

/-- A JavaScript error value, identified by its `.message`. -/
inductive DbError where
  | err (message : String)
deriving DecidableEq

/-- `error.message` of a driver error. -/
def DbError.message : DbError → String
  | .err m => m

/-- A mysql2 result set, carried as its `JSON.stringify(·, null, 2)` text
(the source treats row data opaquely, only ever serializing it). -/
structure ResultSetHeader where
  affectedRows : Nat
  insertId : Nat
  /-- `changedRows` may be absent from the driver result (`undefined`). -/
  changedRows : Option Nat
deriving DecidableEq

/-- The payload of a mysql2 query result: either row data (represented by its
JSON serialization) or a `ResultSetHeader` for write statements. -/
inductive QueryValue where
  | resultSet (json : String)
  | header (h : ResultSetHeader)
deriving DecidableEq

/-- The raw value `connection.query` resolves with, before the source's
`Array.isArray(result) ? result[0] : result` unwrapping: mysql2 resolves with
an array `[payload, fields]` (modelled by its first element), but the source
also guards for a non-array result. -/
inductive RawResult where
  | arr (first : QueryValue)
  | nonArr (v : QueryValue)
deriving DecidableEq

/-- `Array.isArray(result) ? result[0] : result` (src/index.ts:291,377,435). -/
def unwrap : RawResult → QueryValue
  | .arr first => first
  | .nonArr v => v

/-- Observable driver primitive invocations, recorded in order. -/
inductive Event where
  | acquire      -- pool.getConnection() succeeded
  | release      -- connection.release()
  | setReadOnly  -- connection.query('SET SESSION TRANSACTION READ ONLY')
  | setReadWrite -- connection.query('SET SESSION TRANSACTION READ WRITE')
  | userQuery    -- connection.query(sql) for the caller's SQL
  | beginTx      -- connection.beginTransaction()
  | commit       -- connection.commit()
  | rollback     -- connection.rollback()
deriving DecidableEq

/-- The mysql2 driver as an oracle: the outcome of each primitive. Each
primitive has a fixed outcome per run (an invocation repeated within one call
observes the same outcome). `query` is consulted for every
`connection.query(s)`, including the `SET SESSION TRANSACTION ...`
statements the read-only executor issues. -/
structure Driver where
  pool : Except DbError Unit          -- await getPool()
  getConnection : Except DbError Unit -- await pool.getConnection()
  query : String → Except DbError RawResult
  beginTx : Except DbError Unit       -- await connection.beginTransaction()
  commit : Except DbError Unit        -- await connection.commit()
  rollback : Except DbError Unit      -- await connection.rollback()

/-- One content item of a response envelope. -/
structure Content where
  type : String
  text : String
deriving DecidableEq

/-- The response envelope `{content: [...], isError}` returned by the
executors. -/
structure Envelope where
  content : List Content
  isError : Bool
deriving DecidableEq

/-- Write-operation permission flags (src/index.ts:32-34), read from
`ALLOW_INSERT_OPERATION` / `ALLOW_UPDATE_OPERATION` /
`ALLOW_DELETE_OPERATION`. These three process-wide booleans are the whole
permission configuration of src/index.ts; no per-schema data exists there. -/
structure Perms where
  allowInsert : Bool
  allowUpdate : Bool
  allowDelete : Bool
deriving DecidableEq

/-- Propositional equality on `Except` values is decidable (needed to
evaluate the embedding on concrete inputs). -/
instance {e a : Type} [DecidableEq e] [DecidableEq a] :
    DecidableEq (Except e a) := fun x y =>
  match x, y with
  | .ok v, .ok w =>
    if h : v = w then .isTrue (by rw [h])
    else .isFalse (by intro hc; cases hc; exact h rfl)
  | .ok _, .error _ => .isFalse (by intro hc; cases hc)
  | .error _, .ok _ => .isFalse (by intro hc; cases hc)
  | .error v, .error w =>
    if h : v = w then .isTrue (by rw [h])
    else .isFalse (by intro hc; cases hc; exact h rfl)

/-- Number of occurrences of an event in a trace. -/
def countEv (e : Event) : List Event → Nat
  | [] => 0
  | x :: xs => (if x = e then 1 else 0) + countEv e xs

/-- `JSON.stringify(rows, null, 2)`: row sets are carried as their
serialized text; a `ResultSetHeader` object serializes to a JSON object
listing its fields. -/
def jsonStringify : QueryValue → String
  | .resultSet json => json
  | .header h =>
      "\x7b\n  \"affectedRows\": " ++ toString h.affectedRows ++
      ",\n  \"insertId\": " ++ toString h.insertId ++
      (match h.changedRows with
       | some c => ",\n  \"changedRows\": " ++ toString c
       | none => "") ++ "\n\x7d"

/-- src/index.ts:281-301, `executeQuery`: acquire, run the SQL directly (no
classification, no permission check, no transaction), unwrap, release in a
`finally`; errors are logged and re-thrown unchanged. The `params` argument
of the source is parameter binding inside the driver and is not modelled. -/
def executeQuery (d : Driver) (sql : String) :
    Except DbError QueryValue × List Event :=
  match d.pool with
  | .error e => (.error e, [])          -- connection never set: finally releases nothing
  | .ok _ =>
    match d.getConnection with
    | .error e => (.error e, [])
    | .ok _ =>
      match d.query sql with
      | .ok raw => (.ok (unwrap raw), [.acquire, .userQuery, .release])
      | .error e => (.error e, [.acquire, .userQuery, .release])

/-- `Database connection error: ${message}` envelope of the outer catch of
`executeWriteQuery` (src/index.ts:482-492). -/
def connErrEnvelope (e : DbError) : Envelope :=
  { content := [{ type := "text",
                  text := "Database connection error: " ++ e.message }],
    isError := true }

/-- `Error executing write operation: ${message}` envelope of the inner catch
of `executeWriteQuery` (src/index.ts:467-481). -/
def writeErrEnvelope (e : DbError) : Envelope :=
  { content := [{ type := "text",
                  text := "Error executing write operation: " ++ e.message }],
    isError := true }

/-- src/index.ts:440-456: format the committed write result by the statement
keyword. A non-header result makes the JS property accesses yield
`undefined`, which the template interpolates literally. -/
def formatWriteResponse (sql : String) (response : QueryValue) : String :=
  let normalizedSql := jsToUpperCase (jsTrim sql)
  if jsStartsWith normalizedSql "INSERT" then
    match response with
    | .header h =>
        "Insert successful. Affected rows: " ++ toString h.affectedRows ++
        ", Last insert ID: " ++ toString h.insertId
    | .resultSet _ =>
        "Insert successful. Affected rows: undefined, Last insert ID: undefined"
  else if jsStartsWith normalizedSql "UPDATE" then
    match response with
    | .header h =>
        "Update successful. Affected rows: " ++ toString h.affectedRows ++
        ", Changed rows: " ++ toString (h.changedRows.getD 0)
    | .resultSet _ =>
        "Update successful. Affected rows: undefined, Changed rows: 0"
  else if jsStartsWith normalizedSql "DELETE" then
    match response with
    | .header h =>
        "Delete successful. Affected rows: " ++ toString h.affectedRows
    | .resultSet _ =>
        "Delete successful. Affected rows: undefined"
  else jsonStringify response

/-- src/index.ts:430-481: body of `executeWriteQuery` between connection
acquisition and the `finally` (begin; query; commit and format, or inner
catch: rollback and error envelope; a primitive failing inside the inner
catch escapes to the outer catch, which returns the connection-error
envelope). -/
def writeBody (d : Driver) (sql : String) :
    Except DbError Envelope × List Event :=
  match d.beginTx with
  | .error e => (.ok (connErrEnvelope e), [.beginTx])
  | .ok _ =>
    match d.query sql with
    | .error e =>
      -- inner catch: rollback, then the error envelope; a failing rollback
      -- escapes to the outer catch
      (match d.rollback with
       | .ok _ => (.ok (writeErrEnvelope e), [.beginTx, .userQuery, .rollback])
       | .error e2 => (.ok (connErrEnvelope e2), [.beginTx, .userQuery, .rollback]))
    | .ok raw =>
      let response := unwrap raw
      match d.commit with
      | .error e =>
        (match d.rollback with
         | .ok _ => (.ok (writeErrEnvelope e), [.beginTx, .userQuery, .commit, .rollback])
         | .error e2 => (.ok (connErrEnvelope e2), [.beginTx, .userQuery, .commit, .rollback]))
      | .ok _ =>
        (.ok { content := [{ type := "text",
                             text := formatWriteResponse sql response }],
               isError := false },
         [.beginTx, .userQuery, .commit])

/-- src/index.ts:422-499, `executeWriteQuery`: every failure (pool creation,
connection acquisition, begin, statement, commit, rollback) is converted to
an envelope — the function never throws; the `finally` releases the
connection whenever one was acquired. -/
def executeWriteQuery (d : Driver) (sql : String) :
    Except DbError Envelope × List Event :=
  match d.pool with
  | .error e => (.ok (connErrEnvelope e), [])
  | .ok _ =>
    match d.getConnection with
    | .error e => (.ok (connErrEnvelope e), [])
    | .ok _ =>
      let body := writeBody d sql
      (body.1, Event.acquire :: body.2 ++ [Event.release])

/-- src/index.ts:400-412, the outer catch of `executeReadOnlyQuery` once a
connection exists: best-effort `rollback` then `SET SESSION TRANSACTION READ
WRITE` (skipped when the rollback itself fails), cleanup errors swallowed,
then the primary error is re-thrown. -/
def roOuterCatch (d : Driver) (e : DbError) (pre : List Event) :
    Except DbError Envelope × List Event :=
  match d.rollback with
  | .error _ => (.error e, pre ++ [.rollback])
  | .ok _ => (.error e, pre ++ [.rollback, .setReadWrite])

/-- src/index.ts:369-412: body of the read-only path of
`executeReadOnlyQuery` between connection acquisition and the `finally`.
Mirrors the nested try/catch: the inner catch (394-399) rolls back and
re-throws, the outer catch (400-412) rolls back again, resets the session
mode and re-throws the primary error. -/
def roBody (d : Driver) (sql : String) :
    Except DbError Envelope × List Event :=
  match d.query "SET SESSION TRANSACTION READ ONLY" with
  | .error e => roOuterCatch d e [.setReadOnly]
  | .ok _ =>
    match d.beginTx with
    | .error e => roOuterCatch d e [.setReadOnly, .beginTx]
    | .ok _ =>
      match d.query sql with
      | .error e =>
        -- inner catch: rollback then re-throw the query error; if that
        -- rollback itself throws, its error propagates instead
        (match d.rollback with
         | .ok _ => roOuterCatch d e [.setReadOnly, .beginTx, .userQuery, .rollback]
         | .error e2 => roOuterCatch d e2 [.setReadOnly, .beginTx, .userQuery, .rollback])
      | .ok raw =>
        let rows := unwrap raw
        match d.rollback with
        | .error e =>
          -- the unconditional rollback (line 380) threw: the inner catch
          -- rolls back again, which throws the same way, and that error
          -- reaches the outer catch
          roOuterCatch d e [.setReadOnly, .beginTx, .userQuery, .rollback, .rollback]
        | .ok _ =>
          match d.query "SET SESSION TRANSACTION READ WRITE" with
          | .error e =>
            -- the mode reset (line 383) threw inside the inner try: the
            -- inner catch rolls back (succeeding here) and re-throws
            roOuterCatch d e [.setReadOnly, .beginTx, .userQuery, .rollback,
                              .setReadWrite, .rollback]
          | .ok _ =>
            (.ok { content := [{ type := "text",
                                 text := jsonStringify rows }],
                   isError := false },
             [.setReadOnly, .beginTx, .userQuery, .rollback, .setReadWrite])

/-- src/index.ts:363-418: the read-only execution path (acquire, read-only
session, transaction, query, unconditional rollback, mode reset, `finally`
release). -/
def readOnlyPath (d : Driver) (sql : String) :
    Except DbError Envelope × List Event :=
  match d.pool with
  | .error e => (.error e, [])
  | .ok _ =>
    match d.getConnection with
    | .error e => (.error e, [])
    | .ok _ =>
      let body := roBody d sql
      (body.1, Event.acquire :: body.2 ++ [Event.release])

/-- Denial envelope for a blocked category (src/index.ts:313-321 and the two
analogous blocks). -/
def deniedEnvelope (category flag : String) : Envelope :=
  { content := [{ type := "text",
                  text := "Error: " ++ category ++
                    " operations are not allowed. Ask the administrator to enable " ++
                    flag ++ "." }],
    isError := true }

/-- The denial condition of src/index.ts:309-352: the trimmed, upper-cased
SQL starts with a write keyword whose global flag is off. -/
def deniedCheck (p : Perms) (sql : String) : Bool :=
  let normalizedSql := jsToUpperCase (jsTrim sql)
  (jsStartsWith normalizedSql "INSERT" && !p.allowInsert) ||
  (jsStartsWith normalizedSql "UPDATE" && !p.allowUpdate) ||
  (jsStartsWith normalizedSql "DELETE" && !p.allowDelete)

/-- src/index.ts:303-419, `executeReadOnlyQuery`: prefix-based permission
gate (deny → envelope, allowed write → delegate to `executeWriteQuery`),
otherwise the read-only transaction path. -/
def executeReadOnlyQuery (p : Perms) (d : Driver) (sql : String) :
    Except DbError Envelope × List Event :=
  let normalizedSql := jsToUpperCase (jsTrim sql)
  if jsStartsWith normalizedSql "INSERT" && !p.allowInsert then
    (.ok (deniedEnvelope "INSERT" "ALLOW_INSERT_OPERATION"), [])
  else if jsStartsWith normalizedSql "UPDATE" && !p.allowUpdate then
    (.ok (deniedEnvelope "UPDATE" "ALLOW_UPDATE_OPERATION"), [])
  else if jsStartsWith normalizedSql "DELETE" && !p.allowDelete then
    (.ok (deniedEnvelope "DELETE" "ALLOW_DELETE_OPERATION"), [])
  else if (jsStartsWith normalizedSql "INSERT" && p.allowInsert) ||
          (jsStartsWith normalizedSql "UPDATE" && p.allowUpdate) ||
          (jsStartsWith normalizedSql "DELETE" && p.allowDelete) then
    executeWriteQuery d sql
  else
    readOnlyPath d sql

/-! ### Lazy pool singleton (src/index.ts:122-138) -/

/-- A settled `Promise<Pool>`: resolved with a pool — identified by the
value of the construction counter at creation time, so "same instance" is
expressible — or rejected with the construction error (the promise executor
in `getPool` is synchronous, so the promise settles immediately). -/
inductive PoolPromise where
  | resolved (pool : Nat)
  | rejected (e : DbError)
deriving DecidableEq

/-- The module-level mutable state around `getPool` (see `PoolPromise`). -/
structure PoolState where
  poolPromise : Option PoolPromise
  created : Nat
deriving DecidableEq

/-- src/index.ts:124-138, `getPool`: `if (!poolPromise)` assign a new promise
whose synchronous executor either resolves with a fresh pool or rejects with
the construction error (`createPool` outcome given by `create`); in either
case the assigned promise stays cached, because a Promise object — rejected
or not — is truthy. -/
def getPool (create : Except DbError Unit) (s : PoolState) :
    PoolPromise × PoolState :=
  match s.poolPromise with
  | some p => (p, s)
  | none =>
    let p : PoolPromise :=
      match create with
      | .ok _ => .resolved s.created
      | .error e => .rejected e
    (p, { poolPromise := some p, created := s.created + 1 })

/-! ### Multi-connection variant: ConnectionManager (src/unnamed/part_003) -/

/-- One named connection profile (src/src/types.ts). -/
structure ConnectionConfig where
  id : String
  host : String
  port : Nat
  user : String
  password : String
  name : String
deriving DecidableEq

/-- The `ConnectionManager` instance state: loaded configs, the open pools
map (pools identified by creation tokens), the single active selection, and
a counter generating fresh pool tokens. -/
structure CMState where
  configs : List ConnectionConfig
  connections : List (String × Nat)
  activeConnectionId : Option String
  nextPool : Nat
deriving DecidableEq

/-- The text result `connectToDatabase` resolves with. -/
structure ConnectResult where
  text : String
deriving DecidableEq

/-- src/unnamed/part_003:36-90, `ConnectionManager.connectToDatabase`:
unknown id → throw; an already-open pool for the id → mark it active and
report the switch (no pool is created, the stored pool is kept); otherwise
create a pool, test it (`getConnection` + `ping`, outcome given by the
`test` oracle), store it and mark it active; a failing test throws a wrapped
error and neither stores the pool nor changes the selection. -/
def connectToDatabase (test : Except String Unit) (s : CMState)
    (connectionId : String) : Except String ConnectResult × CMState :=
  match s.configs.find? (fun c => c.id == connectionId) with
  | none =>
    (.error ("Connection configuration not found for ID: " ++ connectionId), s)
  | some config =>
    match s.connections.lookup connectionId with
    | some _pool =>
      (.ok { text := "Successfully switched to existing connection: " ++
               connectionId ++ " (" ++ config.host ++ ":" ++
               toString config.port ++ "/" ++ config.name ++ ")" },
       { s with activeConnectionId := some connectionId })
    | none =>
      -- mysql2.createPool(poolConfig), then the health check
      match test with
      | .ok _ =>
        (.ok { text := "Successfully connected to: " ++ connectionId ++
                 " (" ++ config.host ++ ":" ++ toString config.port ++ "/" ++
                 config.name ++ ")" },
         { s with connections := s.connections ++ [(connectionId, s.nextPool)],
                  activeConnectionId := some connectionId,
                  nextPool := s.nextPool + 1 })
      | .error m =>
        (.error ("Failed to connect to database " ++ connectionId ++ ": " ++ m),
         { s with nextPool := s.nextPool + 1 })

/-! ### Helpers for stating the claims, and concrete drivers for witnesses -/

/-- `needle` occurs as contiguous text inside `hay`. -/
def containsText (hay needle : String) : Prop :=
  ∃ before after, before ++ needle ++ after = hay

/-- A driver whose every primitive succeeds; queries resolve with an
affected-rows header wrapped in the usual `[result, fields]` array. -/
def okDriver : Driver where
  pool := .ok ()
  getConnection := .ok ()
  query := fun _ => .ok (.arr (.header ⟨1, 1, none⟩))
  beginTx := .ok ()
  commit := .ok ()
  rollback := .ok ()

/-- A driver that fails exactly the user's `SELECT * FROM t` mid-query and
succeeds on every other primitive (rollback included). -/
def failingSelectDriver : Driver where
  pool := .ok ()
  getConnection := .ok ()
  query := fun s =>
    if s = "SELECT * FROM t" then .error (.err "driver failure mid-query")
    else .ok (.arr (.resultSet "[]"))
  beginTx := .ok ()
  commit := .ok ()
  rollback := .ok ()

/-! ## Theorems -/

/-- `countEv` distributes over trace concatenation. -/
theorem countEv_append (e : Event) (l₁ l₂ : List Event) :
    countEv e (l₁ ++ l₂) = countEv e l₁ + countEv e l₂ := by
  induction l₁ with
  | nil => simp [countEv]
  | cons x xs ih => simp [countEv, ih]; omega

/-- Candidate keywords with different first characters cannot both be
prefixes of the same character list. -/
theorem isPrefixOf_first_ne {c₁ c₂ : Char} {r₁ r₂ l : List Char}
    (hne : c₂ ≠ c₁) (h : List.isPrefixOf (c₁ :: r₁) l = true) :
    List.isPrefixOf (c₂ :: r₂) l = false := by
  cases l with
  | nil => simp at h
  | cons c t =>
    rw [List.isPrefixOf_cons₂] at h ⊢
    rw [Bool.and_eq_true, beq_iff_eq] at h
    have hcc : (c₂ == c) = false :=
      beq_eq_false_iff_ne.mpr (fun hc => hne (hc.trans h.1.symm))
    rw [hcc, Bool.false_and]

/-- Keywords with different first characters: at most one can start the
normalized SQL text. -/
theorem jsStartsWith_excl {s p₁ p₂ : String} (c₁ : Char) (r₁ : List Char)
    (c₂ : Char) (r₂ : List Char)
    (hp₁ : p₁.data = c₁ :: r₁) (hp₂ : p₂.data = c₂ :: r₂) (hne : c₂ ≠ c₁)
    (h : jsStartsWith s p₁ = true) : jsStartsWith s p₂ = false := by
  unfold jsStartsWith at h ⊢
  rw [hp₁] at h
  rw [hp₂]
  exact isPrefixOf_first_ne hne h

/-- The outer catch re-throws the primary error and appends only cleanup
events (one rollback, plus the mode reset when the rollback succeeded). -/
theorem roOuterCatch_eq (d : Driver) (e : DbError) (pre : List Event) :
    (roOuterCatch d e pre).1 = .error e ∧
    ((roOuterCatch d e pre).2 = pre ++ [.rollback] ∨
     (roOuterCatch d e pre).2 = pre ++ [.rollback, .setReadWrite]) := by
  unfold roOuterCatch
  split <;> simp

/-- The outer catch preserves acquire/release counts. -/
theorem roOuterCatch_counts (d : Driver) (e : DbError) (pre : List Event) :
    countEv .acquire (roOuterCatch d e pre).2 = countEv .acquire pre ∧
    countEv .release (roOuterCatch d e pre).2 = countEv .release pre := by
  unfold roOuterCatch
  split <;> simp [countEv_append, countEv]

/-- The read-only body (between acquisition and the `finally`) never
acquires or releases a connection itself. -/
theorem roBody_counts (d : Driver) (sql : String) :
    countEv .acquire (roBody d sql).2 = 0 ∧
    countEv .release (roBody d sql).2 = 0 := by
  unfold roBody
  repeat' split
  all_goals
    first
      | exact ⟨rfl, rfl⟩
      | exact ⟨((roOuterCatch_counts _ _ _).1).trans rfl,
               ((roOuterCatch_counts _ _ _).2).trans rfl⟩

/-- The write body (between acquisition and the `finally`) never acquires or
releases a connection itself. -/
theorem writeBody_counts (d : Driver) (sql : String) :
    countEv .acquire (writeBody d sql).2 = 0 ∧
    countEv .release (writeBody d sql).2 = 0 := by
  unfold writeBody
  repeat' split
  all_goals exact ⟨rfl, rfl⟩

/-- `executeWriteQuery` balances acquisition and release. -/
theorem executeWriteQuery_counts (d : Driver) (sql : String) :
    countEv .release (executeWriteQuery d sql).2 =
      countEv .acquire (executeWriteQuery d sql).2 ∧
    countEv .acquire (executeWriteQuery d sql).2 ≤ 1 := by
  unfold executeWriteQuery
  split
  · exact ⟨rfl, by simp [countEv]⟩
  · split
    · exact ⟨rfl, by simp [countEv]⟩
    · obtain ⟨ha, hr⟩ := writeBody_counts d sql
      simp [countEv, countEv_append, ha, hr]

/-- `readOnlyPath` balances acquisition and release. -/
theorem readOnlyPath_counts (d : Driver) (sql : String) :
    countEv .release (readOnlyPath d sql).2 =
      countEv .acquire (readOnlyPath d sql).2 ∧
    countEv .acquire (readOnlyPath d sql).2 ≤ 1 := by
  unfold readOnlyPath
  split
  · exact ⟨rfl, by simp [countEv]⟩
  · split
    · exact ⟨rfl, by simp [countEv]⟩
    · obtain ⟨ha, hr⟩ := roBody_counts d sql
      simp [countEv, countEv_append, ha, hr]

/-- A denied statement yields an `isError` envelope with an empty trace. -/
theorem denied_result (p : Perms) (d : Driver) (sql : String)
    (h : deniedCheck p sql = true) :
    ∃ env, executeReadOnlyQuery p d sql = (.ok env, []) ∧ env.isError = true := by
  simp only [deniedCheck] at h
  simp only [executeReadOnlyQuery]
  split
  · exact ⟨_, rfl, rfl⟩
  · split
    · exact ⟨_, rfl, rfl⟩
    · split
      · exact ⟨_, rfl, rfl⟩
      · simp_all

/-! ## Claim theorems -/

/-- C1: for every SQL input and every driver outcome, `executeReadOnlyQuery`
and `executeWriteQuery` each release exactly as many connections as they
acquire (at most one), and a permission denial acquires and releases
nothing. -/
theorem C1_release_balanced (p : Perms) (d : Driver) (sql : String) :
    countEv .release (executeReadOnlyQuery p d sql).2 =
      countEv .acquire (executeReadOnlyQuery p d sql).2 ∧
    countEv .acquire (executeReadOnlyQuery p d sql).2 ≤ 1 ∧
    countEv .release (executeWriteQuery d sql).2 =
      countEv .acquire (executeWriteQuery d sql).2 ∧
    countEv .acquire (executeWriteQuery d sql).2 ≤ 1 ∧
    (deniedCheck p sql = true → (executeReadOnlyQuery p d sql).2 = []) := by
  obtain ⟨hw1, hw2⟩ := executeWriteQuery_counts d sql
  refine ⟨?_, ?_, hw1, hw2, ?_⟩
  · simp only [executeReadOnlyQuery]
    split
    · rfl
    · split
      · rfl
      · split
        · rfl
        · split
          · exact hw1
          · exact (readOnlyPath_counts d sql).1
  · simp only [executeReadOnlyQuery]
    split
    · simp [countEv]
    · split
      · simp [countEv]
      · split
        · simp [countEv]
        · split
          · exact hw2
          · exact (readOnlyPath_counts d sql).2
  · intro h
    obtain ⟨env, he, -⟩ := denied_result p d sql h
    simp [he]

/-- C1 witness: a concrete denied call (INSERT with the flag off) acquires
and releases zero connections, and the balance equalities hold there. -/
theorem C1_release_balanced_witness :
    countEv .release (executeReadOnlyQuery ⟨false, false, false⟩ okDriver
        "INSERT INTO t VALUES (1)").2 =
      countEv .acquire (executeReadOnlyQuery ⟨false, false, false⟩ okDriver
        "INSERT INTO t VALUES (1)").2 ∧
    (executeReadOnlyQuery ⟨false, false, false⟩ okDriver
        "INSERT INTO t VALUES (1)").2 = [] := by
  obtain ⟨h1, -, -, -, h5⟩ :=
    C1_release_balanced ⟨false, false, false⟩ okDriver "INSERT INTO t VALUES (1)"
  exact ⟨h1, h5 (by decide)⟩

/-- C2: whenever the prefix-based permission gate denies the statement,
`executeReadOnlyQuery` returns a normal envelope with `isError := true`
(no thrown error) and its trace is empty — no connection is acquired. -/
theorem C2_denial_is_envelope_without_acquisition (p : Perms) (d : Driver)
    (sql : String) (h : deniedCheck p sql = true) :
    ∃ env, executeReadOnlyQuery p d sql = (.ok env, []) ∧
      env.isError = true := by
  exact denied_result p d sql h

/-- C2 witness: a concrete denied DELETE yields the error envelope with an
empty trace. -/
theorem C2_denial_witness :
    deniedCheck ⟨true, true, false⟩ "DELETE FROM users" = true ∧
    ∃ env, executeReadOnlyQuery ⟨true, true, false⟩ okDriver "DELETE FROM users" =
        (.ok env, []) ∧ env.isError = true :=
  ⟨by decide,
   C2_denial_is_envelope_without_acquisition ⟨true, true, false⟩ okDriver
     "DELETE FROM users" (by decide)⟩

/-- C3 counterexample: the claim's AND rule fails on the code. With INSERT
allowed and DELETE denied, the composite script
`INSERT INTO t (a) VALUES (1); DELETE FROM t` is not denied as a whole: the
code looks only at the leading keyword, routes the script to the write
executor, executes and commits it (`isError := false`, one commit). -/
theorem C3_counterexample :
    (executeReadOnlyQuery ⟨true, false, false⟩ okDriver
        "INSERT INTO t (a) VALUES (1); DELETE FROM t").1 =
      .ok { content := [{ type := "text",
                          text := "Insert successful. Affected rows: 1, Last insert ID: 1" }],
            isError := false } ∧
    countEv .commit (executeReadOnlyQuery ⟨true, false, false⟩ okDriver
        "INSERT INTO t (a) VALUES (1); DELETE FROM t").2 = 1 := by
  decide

/-- C3 (amended): the authorization verdict depends only on the first
keyword of the trimmed input — a multi-statement script whose normalized
text starts with INSERT while INSERT is allowed is handed to the write
executor wholesale, so statements after the first (e.g. a denied DELETE)
never affect the verdict. -/
theorem C3_first_keyword_decides (p : Perms) (d : Driver) (sql : String)
    (h : jsStartsWith (jsToUpperCase (jsTrim sql)) "INSERT" = true)
    (ha : p.allowInsert = true) :
    executeReadOnlyQuery p d sql = executeWriteQuery d sql := by
  have hu : jsStartsWith (jsToUpperCase (jsTrim sql)) "UPDATE" = false :=
    jsStartsWith_excl 'I' ['N', 'S', 'E', 'R', 'T']
      'U' ['P', 'D', 'A', 'T', 'E'] rfl rfl (by decide) h
  have hd : jsStartsWith (jsToUpperCase (jsTrim sql)) "DELETE" = false :=
    jsStartsWith_excl 'I' ['N', 'S', 'E', 'R', 'T']
      'D' ['E', 'L', 'E', 'T', 'E'] rfl rfl (by decide) h
  simp [executeReadOnlyQuery, h, ha, hu, hd]

/-- C3 witness: the amended rule applied to the composite
allowed-INSERT/denied-DELETE script. -/
theorem C3_first_keyword_decides_witness :
    executeReadOnlyQuery ⟨true, false, false⟩ okDriver
        "INSERT INTO t (a) VALUES (1); DELETE FROM t" =
      executeWriteQuery okDriver "INSERT INTO t (a) VALUES (1); DELETE FROM t" :=
  C3_first_keyword_decides ⟨true, false, false⟩ okDriver
    "INSERT INTO t (a) VALUES (1); DELETE FROM t" (by decide) rfl

/-- C4 (code-bug evidence): src/index.ts consults only the global flag — it
reads no per-schema override. With the global insert default off (the
configuration of tests/multi-db, which sets
`SCHEMA_INSERT_PERMISSIONS="multi_db_test_1:true"` and expects this insert
to succeed), the insert into `multi_db_test_1` is denied without any
connection being acquired, and the denial is byte-identical to the denial
for any other schema — the resolved schema cannot influence the verdict. -/
theorem C4_schema_override_ignored :
    executeReadOnlyQuery ⟨false, false, false⟩ okDriver
        "INSERT INTO multi_db_test_1.test_table (name) VALUES ('New DB1 Record')" =
      (.ok (deniedEnvelope "INSERT" "ALLOW_INSERT_OPERATION"), []) ∧
    executeReadOnlyQuery ⟨false, false, false⟩ okDriver
        "INSERT INTO multi_db_test_2.test_table (name) VALUES ('New DB2 Record')" =
      (.ok (deniedEnvelope "INSERT" "ALLOW_INSERT_OPERATION"), []) := by
  decide

/-- C5 counterexample: under the read-only strategy, a driver failure
mid-query makes the code invoke rollback twice — once in the inner error
handler (src/index.ts:397) and once in the outer cleanup (405) — not
exactly once as the claim states. -/
theorem C5_counterexample :
    countEv .rollback (executeReadOnlyQuery ⟨false, false, false⟩
        failingSelectDriver "SELECT * FROM t").2 = 2 := by
  decide

/-- C5 (amended): the read-only executor sets the session read-only, begins
a transaction, executes, always rolls back, resets the session and releases;
on a driver failure mid-query, rollback is invoked exactly twice (inner
handler plus outer cleanup), the session reset exactly once, the connection
released exactly once, and the original error is re-thrown unchanged. -/
theorem C5_read_only_discipline (p : Perms) (d : Driver) (sql : String)
    (hi : jsStartsWith (jsToUpperCase (jsTrim sql)) "INSERT" = false)
    (hu : jsStartsWith (jsToUpperCase (jsTrim sql)) "UPDATE" = false)
    (hd : jsStartsWith (jsToUpperCase (jsTrim sql)) "DELETE" = false)
    (hp : d.pool = .ok ()) (hc : d.getConnection = .ok ())
    (rro : RawResult)
    (hro : d.query "SET SESSION TRANSACTION READ ONLY" = .ok rro)
    (hb : d.beginTx = .ok ()) (hrb : d.rollback = .ok ()) :
    (∀ raw, d.query sql = .ok raw →
      ∀ rrw, d.query "SET SESSION TRANSACTION READ WRITE" = .ok rrw →
      executeReadOnlyQuery p d sql =
        (.ok { content := [{ type := "text",
                             text := jsonStringify (unwrap raw) }],
               isError := false },
         [.acquire, .setReadOnly, .beginTx, .userQuery, .rollback,
          .setReadWrite, .release])) ∧
    (∀ e, d.query sql = .error e →
      executeReadOnlyQuery p d sql =
        (.error e,
         [.acquire, .setReadOnly, .beginTx, .userQuery, .rollback, .rollback,
          .setReadWrite, .release])) := by
  constructor
  · intro raw hq rrw hrw
    simp [executeReadOnlyQuery, hi, hu, hd, readOnlyPath, roBody, hp, hc,
          hro, hb, hq, hrb, hrw]
  · intro e hq
    simp [executeReadOnlyQuery, hi, hu, hd, readOnlyPath, roBody, roOuterCatch,
          hp, hc, hro, hb, hq, hrb]

/-- C5 witness: the amended discipline evaluated on the concrete
mid-query-failure driver. -/
theorem C5_read_only_discipline_witness :
    executeReadOnlyQuery ⟨false, false, false⟩ failingSelectDriver
        "SELECT * FROM t" =
      (.error (.err "driver failure mid-query"),
       [.acquire, .setReadOnly, .beginTx, .userQuery, .rollback, .rollback,
        .setReadWrite, .release]) :=
  (C5_read_only_discipline ⟨false, false, false⟩ failingSelectDriver
      "SELECT * FROM t" (by decide) (by decide) (by decide) rfl rfl
      (.arr (.resultSet "[]")) (by decide) rfl rfl).2
    (.err "driver failure mid-query") (by decide)

/-- The write body never throws: every outcome is an envelope. -/
theorem writeBody_ok (d : Driver) (sql : String) :
    ∃ env, (writeBody d sql).1 = .ok env := by
  unfold writeBody
  repeat' split
  all_goals exact ⟨_, rfl⟩

/-- C6: `executeWriteQuery` never throws; a pool-creation or acquisition
failure becomes the connection-error envelope (`isError := true`); once a
connection exists it begins a transaction, and on statement success it
commits and returns the formatted result with `isError := false`, while on
statement failure it rolls back and returns the write-error envelope with
`isError := true`. -/
theorem C6_write_error_envelope (d : Driver) (sql : String) :
    (∃ env, (executeWriteQuery d sql).1 = .ok env) ∧
    (∀ e, d.pool = .error e →
       executeWriteQuery d sql = (.ok (connErrEnvelope e), [])) ∧
    (∀ e, d.pool = .ok () → d.getConnection = .error e →
       executeWriteQuery d sql = (.ok (connErrEnvelope e), [])) ∧
    (d.pool = .ok () → d.getConnection = .ok () → d.beginTx = .ok () →
      (∀ raw, d.query sql = .ok raw → d.commit = .ok () →
        executeWriteQuery d sql =
          (.ok { content := [{ type := "text",
                               text := formatWriteResponse sql (unwrap raw) }],
                 isError := false },
           [.acquire, .beginTx, .userQuery, .commit, .release])) ∧
      (∀ e, d.query sql = .error e → d.rollback = .ok () →
        executeWriteQuery d sql =
          (.ok (writeErrEnvelope e),
           [.acquire, .beginTx, .userQuery, .rollback, .release]))) := by
  refine ⟨?_, ?_, ?_, ?_⟩
  · unfold executeWriteQuery
    split
    · exact ⟨_, rfl⟩
    · split
      · exact ⟨_, rfl⟩
      · exact writeBody_ok d sql
  · intro e he
    simp [executeWriteQuery, he]
  · intro e hp hc
    simp [executeWriteQuery, hp, hc]
  · intro hp hc hb
    constructor
    · intro raw hq hcm
      simp [executeWriteQuery, writeBody, hp, hc, hb, hq, hcm]
    · intro e hq hrb
      simp [executeWriteQuery, writeBody, hp, hc, hb, hq, hrb]

/-- C6 witness: concrete success (INSERT committed, `isError := false`) and
concrete statement failure (rolled back, `isError := true` envelope). -/
theorem C6_write_error_envelope_witness :
    executeWriteQuery okDriver "INSERT INTO t (a) VALUES (1)" =
      (.ok { content := [{ type := "text",
                           text := "Insert successful. Affected rows: 1, Last insert ID: 1" }],
             isError := false },
       [.acquire, .beginTx, .userQuery, .commit, .release]) ∧
    executeWriteQuery failingSelectDriver "SELECT * FROM t" =
      (.ok (writeErrEnvelope (.err "driver failure mid-query")),
       [.acquire, .beginTx, .userQuery, .rollback, .release]) := by
  constructor
  · have h := ((C6_write_error_envelope okDriver
        "INSERT INTO t (a) VALUES (1)").2.2.2 rfl rfl rfl).1
      (.arr (.header ⟨1, 1, none⟩)) rfl rfl
    rw [h]
    decide
  · exact ((C6_write_error_envelope failingSelectDriver
        "SELECT * FROM t").2.2.2 rfl rfl rfl).2
      (.err "driver failure mid-query") (by decide) rfl

/-- C7 counterexample: a failed first construction is cached. After a first
call whose `createPool` throws, a second call — even with a now-working
constructor — returns the same cached rejected promise and performs no new
construction (the creation counter stays at 1), refuting "a later call may
retry construction". -/
theorem C7_counterexample :
    (getPool (.error (.err "driver cannot initialize")) ⟨none, 0⟩).1 =
      .rejected (.err "driver cannot initialize") ∧
    (getPool (.ok ())
        ((getPool (.error (.err "driver cannot initialize")) ⟨none, 0⟩).2)).1 =
      .rejected (.err "driver cannot initialize") ∧
    ((getPool (.ok ())
        ((getPool (.error (.err "driver cannot initialize")) ⟨none, 0⟩).2)).2).created
      = 1 := by
  decide

/-- C7 (amended): `getPool` constructs on the first call only and caches the
settled promise: with a cached promise every call returns it unchanged (same
instance, no reconstruction); a first-call construction failure is surfaced
to that caller as the rejected promise, which is then cached like a success,
so later calls receive the same rejection and construction is never
retried. -/
theorem C7_pool_promise_cached (create : Except DbError Unit) (s : PoolState) :
    (s.poolPromise = none →
       (getPool create s).2.created = s.created + 1 ∧
       (getPool create s).2.poolPromise = some (getPool create s).1 ∧
       (∀ e, create = .error e → (getPool create s).1 = .rejected e) ∧
       (create = .ok () → (getPool create s).1 = .resolved s.created)) ∧
    (∀ q, s.poolPromise = some q → getPool create s = (q, s)) := by
  constructor
  · intro hn
    refine ⟨?_, ?_, ?_, ?_⟩
    · simp [getPool, hn]
    · simp [getPool, hn]
    · intro e he
      simp [getPool, hn, he]
    · intro hok
      simp [getPool, hn, hok]
  · intro q hq
    simp [getPool, hq]

/-- C7 witness: the amended caching behaviour at a concrete first call
(successful construction) and a concrete cached rejection. -/
theorem C7_pool_promise_cached_witness :
    (getPool (.ok ()) ⟨none, 0⟩).1 = .resolved 0 ∧
    getPool (.ok ()) ⟨some (.rejected (.err "boom")), 1⟩ =
      (.rejected (.err "boom"), ⟨some (.rejected (.err "boom")), 1⟩) :=
  ⟨((C7_pool_promise_cached (.ok ()) ⟨none, 0⟩).1 rfl).2.2.2 rfl,
   (C7_pool_promise_cached (.ok ()) ⟨some (.rejected (.err "boom")), 1⟩).2
     (.rejected (.err "boom")) rfl⟩

/-- C8: formatting a committed insert yields
`Insert successful. Affected rows: {n}, Last insert ID: {id}`; at
`affectedRows := 1, insertId := 42` the text contains both
`Affected rows: 1` and `Last insert ID: 42`; and an update whose driver
omits `changedRows` reports `Changed rows: 0`. -/
theorem C8_write_format (sql sqlU : String) (n i a : Nat) (c : Option Nat)
    (hins : jsStartsWith (jsToUpperCase (jsTrim sql)) "INSERT" = true)
    (hupd : jsStartsWith (jsToUpperCase (jsTrim sqlU)) "UPDATE" = true) :
    formatWriteResponse sql (.header ⟨n, i, c⟩) =
      "Insert successful. Affected rows: " ++ toString n ++
      ", Last insert ID: " ++ toString i ∧
    containsText (formatWriteResponse sql (.header ⟨1, 42, c⟩))
      "Affected rows: 1" ∧
    containsText (formatWriteResponse sql (.header ⟨1, 42, c⟩))
      "Last insert ID: 42" ∧
    formatWriteResponse sqlU (.header ⟨a, i, none⟩) =
      "Update successful. Affected rows: " ++ toString a ++
      ", Changed rows: 0" := by
  have hinsU : jsStartsWith (jsToUpperCase (jsTrim sqlU)) "INSERT" = false :=
    jsStartsWith_excl 'U' ['P', 'D', 'A', 'T', 'E']
      'I' ['N', 'S', 'E', 'R', 'T'] rfl rfl (by decide) hupd
  have hfmt : formatWriteResponse sql (.header ⟨1, 42, c⟩) =
      "Insert successful. Affected rows: 1, Last insert ID: 42" := by
    simp only [formatWriteResponse, hins, if_true]
    rfl
  refine ⟨?_, ?_, ?_, ?_⟩
  · simp [formatWriteResponse, hins]
  · rw [hfmt]
    exact ⟨"Insert successful. ", ", Last insert ID: 42", by decide⟩
  · rw [hfmt]
    exact ⟨"Insert successful. Affected rows: 1, ", "", by decide⟩
  · simp [formatWriteResponse, hinsU, hupd]
    rw [String.append_assoc]
    congr 1

/-- C8 witness: the formats evaluated at concrete statements and
`affectedRows := 1, insertId := 42` / an update with three affected rows and
no `changedRows` field. -/
theorem C8_write_format_witness :
    containsText (formatWriteResponse "INSERT INTO users (name) VALUES ('x')"
        (.header ⟨1, 42, none⟩)) "Affected rows: 1" ∧
    containsText (formatWriteResponse "INSERT INTO users (name) VALUES ('x')"
        (.header ⟨1, 42, none⟩)) "Last insert ID: 42" ∧
    formatWriteResponse "UPDATE users SET name = 'y'" (.header ⟨3, 0, none⟩) =
      "Update successful. Affected rows: 3, Changed rows: 0" := by
  obtain ⟨-, h2, h3, h4⟩ :=
    C8_write_format "INSERT INTO users (name) VALUES ('x')"
      "UPDATE users SET name = 'y'" 1 42 3 none (by decide) (by decide)
  exact ⟨h2, h3, h4.trans (by decide)⟩

/-- C9: `connectToDatabase` fails when the id is not configured (state
untouched); switches to an already-open pool (kept, not recreated) and marks
it the single active selection; otherwise creates a pool, health-checks it,
stores it and marks it active; a failing health check throws and neither
stores the pool nor changes the selection. -/
theorem C9_connect_to_database (t : Except String Unit) (s : CMState)
    (id : String) :
    (s.configs.find? (fun c => c.id == id) = none →
       connectToDatabase t s id =
         (.error ("Connection configuration not found for ID: " ++ id), s)) ∧
    (∀ cfg, s.configs.find? (fun c => c.id == id) = some cfg →
      (∀ pl, s.connections.lookup id = some pl →
         (connectToDatabase t s id).1 =
           .ok { text := "Successfully switched to existing connection: " ++
                   id ++ " (" ++ cfg.host ++ ":" ++ toString cfg.port ++ "/" ++
                   cfg.name ++ ")" } ∧
         (connectToDatabase t s id).2 =
           { s with activeConnectionId := some id }) ∧
      (s.connections.lookup id = none → t = .ok () →
         (connectToDatabase t s id).1 =
           .ok { text := "Successfully connected to: " ++ id ++ " (" ++
                   cfg.host ++ ":" ++ toString cfg.port ++ "/" ++
                   cfg.name ++ ")" } ∧
         (connectToDatabase t s id).2 =
           { configs := s.configs,
             connections := s.connections ++ [(id, s.nextPool)],
             activeConnectionId := some id,
             nextPool := s.nextPool + 1 }) ∧
      (∀ m, s.connections.lookup id = none → t = .error m →
         (connectToDatabase t s id).1 =
           .error ("Failed to connect to database " ++ id ++ ": " ++ m) ∧
         ((connectToDatabase t s id).2).connections = s.connections ∧
         ((connectToDatabase t s id).2).activeConnectionId =
           s.activeConnectionId)) := by
  constructor
  · intro hn
    simp [connectToDatabase, hn]
  · intro cfg hc
    refine ⟨?_, ?_, ?_⟩
    · intro pl hl
      constructor <;> simp [connectToDatabase, hc, hl]
    · intro hl ht
      constructor <;> simp [connectToDatabase, hc, hl, ht]
    · intro m hl ht
      refine ⟨?_, ?_, ?_⟩ <;> simp [connectToDatabase, hc, hl, ht]

/-- C9 witness: a two-profile configuration — an unknown id fails, a fresh
id with a passing ping is stored and becomes active. -/
theorem C9_connect_to_database_witness :
    connectToDatabase (.ok ())
        ⟨[⟨"db1", "h", 3306, "root", "pw", "mydb"⟩], [], none, 0⟩ "nope" =
      (.error "Connection configuration not found for ID: nope",
       ⟨[⟨"db1", "h", 3306, "root", "pw", "mydb"⟩], [], none, 0⟩) ∧
    (connectToDatabase (.ok ())
        ⟨[⟨"db1", "h", 3306, "root", "pw", "mydb"⟩], [], none, 0⟩ "db1").2 =
      ⟨[⟨"db1", "h", 3306, "root", "pw", "mydb"⟩], [("db1", 0)], some "db1", 1⟩ := by
  constructor
  · exact (C9_connect_to_database (.ok ())
      ⟨[⟨"db1", "h", 3306, "root", "pw", "mydb"⟩], [], none, 0⟩ "nope").1
      (by decide)
  · have h := (((C9_connect_to_database (.ok ())
      ⟨[⟨"db1", "h", 3306, "root", "pw", "mydb"⟩], [], none, 0⟩ "db1").2
      ⟨"db1", "h", 3306, "root", "pw", "mydb"⟩ (by decide)).2.1 rfl rfl).2
    rw [h]
    rfl

/-- C10: `executeQuery` (backing the resource handlers) opens no transaction
and issues no session-mode statements, balances acquisition and release, and
— once a connection is available — returns the first element of an array
driver result on success and re-throws the driver error unchanged on
failure. -/
theorem C10_execute_query_direct (d : Driver) (sql : String) :
    countEv .beginTx (executeQuery d sql).2 = 0 ∧
    countEv .commit (executeQuery d sql).2 = 0 ∧
    countEv .rollback (executeQuery d sql).2 = 0 ∧
    countEv .setReadOnly (executeQuery d sql).2 = 0 ∧
    countEv .setReadWrite (executeQuery d sql).2 = 0 ∧
    countEv .release (executeQuery d sql).2 =
      countEv .acquire (executeQuery d sql).2 ∧
    (d.pool = .ok () → d.getConnection = .ok () →
      (∀ v, d.query sql = .ok (.arr v) → (executeQuery d sql).1 = .ok v) ∧
      (∀ e, d.query sql = .error e → (executeQuery d sql).1 = .error e) ∧
      (executeQuery d sql).2 = [.acquire, .userQuery, .release]) := by
  have htrace : ∀ ev : Event,
      countEv ev (executeQuery d sql).2 = countEv ev [] ∨
      countEv ev (executeQuery d sql).2 =
        countEv ev [Event.acquire, Event.userQuery, Event.release] := by
    intro ev
    unfold executeQuery
    repeat' split
    all_goals simp
  refine ⟨?_, ?_, ?_, ?_, ?_, ?_, ?_⟩
  · rcases htrace .beginTx with h | h <;> rw [h] <;> rfl
  · rcases htrace .commit with h | h <;> rw [h] <;> rfl
  · rcases htrace .rollback with h | h <;> rw [h] <;> rfl
  · rcases htrace .setReadOnly with h | h <;> rw [h] <;> rfl
  · rcases htrace .setReadWrite with h | h <;> rw [h] <;> rfl
  · unfold executeQuery
    repeat' split
    all_goals rfl
  · intro hp hc
    refine ⟨?_, ?_, ?_⟩
    · intro v hq
      simp [executeQuery, hp, hc, hq, unwrap]
    · intro e hq
      simp [executeQuery, hp, hc, hq]
    · cases hq : d.query sql <;> simp [executeQuery, hp, hc, hq]

/-- C10 witness: concrete success returning the first array element, and a
concrete failure re-thrown unchanged with the same single
acquire/query/release trace. -/
theorem C10_execute_query_direct_witness :
    (executeQuery okDriver "SELECT 1").1 = .ok (.header ⟨1, 1, none⟩) ∧
    (executeQuery failingSelectDriver "SELECT * FROM t").1 =
      .error (.err "driver failure mid-query") ∧
    (executeQuery failingSelectDriver "SELECT * FROM t").2 =
      [.acquire, .userQuery, .release] := by
  refine ⟨?_, ?_, ?_⟩
  · exact ((C10_execute_query_direct okDriver "SELECT 1").2.2.2.2.2.2
      rfl rfl).1 (.header ⟨1, 1, none⟩) rfl
  · exact ((C10_execute_query_direct failingSelectDriver
      "SELECT * FROM t").2.2.2.2.2.2 rfl rfl).2.1
      (.err "driver failure mid-query") (by decide)
  · exact ((C10_execute_query_direct failingSelectDriver
      "SELECT * FROM t").2.2.2.2.2.2 rfl rfl).2.2

end McpMysql
